import Mathlib

/-!
Verification of the audio session engine of the ha-openai-realtime repository
(esphome components voice_assistant_websocket / voice_assistant_webrtc).

Shallow embedding: the playback queue, reconnect gate, session start logic,
audio format conversion and the Pipecat signaling handlers are translated
from the C++ sources into executable Lean definitions; the claims of the
specification are then settled against these definitions.
-/

namespace VoiceAssist

/-! ## Constants (from voice_assistant_websocket.h / voice_assistant_webrtc.h) -/

/-- MAX_RECONNECT_ATTEMPTS in both headers. -/
def MAX_RECONNECT_ATTEMPTS : ℕ := 5

/-- RECONNECT_DELAY_MS in both headers. -/
def RECONNECT_DELAY_MS : ℕ := 5000

/-- MAX_QUEUE_SIZE in voice_assistant_websocket.h (10 chunks). -/
def WS_MAX_QUEUE_SIZE : ℕ := 10

/-- MAX_QUEUE_DURATION_SECONDS in voice_assistant_webrtc.h. -/
def RTC_MAX_QUEUE_DURATION_SECONDS : ℕ := 5

/-- BYTES_PER_SECOND in voice_assistant_webrtc.h. -/
def RTC_BYTES_PER_SECOND : ℕ := 48000

/-- MAX_QUEUE_BYTES in voice_assistant_webrtc.h. -/
def RTC_MAX_QUEUE_BYTES : ℕ := RTC_MAX_QUEUE_DURATION_SECONDS * RTC_BYTES_PER_SECOND

/-- ESTIMATED_CHUNK_SIZE in voice_assistant_webrtc.h. -/
def RTC_ESTIMATED_CHUNK_SIZE : ℕ := 4096

/-- MAX_QUEUE_SIZE in voice_assistant_webrtc.h: (MAX_QUEUE_BYTES / ESTIMATED_CHUNK_SIZE) + 10. -/
def RTC_MAX_QUEUE_SIZE : ℕ := RTC_MAX_QUEUE_BYTES / RTC_ESTIMATED_CHUNK_SIZE + 10

/-- MICROPHONE_SAMPLE_RATE (16 kHz) in both headers. -/
def MICROPHONE_SAMPLE_RATE : ℕ := 16000

/-- INPUT_SAMPLE_RATE (24 kHz, wire format) in both headers. -/
def INPUT_SAMPLE_RATE : ℕ := 24000

/-- BYTES_PER_SAMPLE (16-bit wire samples) in both headers. -/
def BYTES_PER_SAMPLE : ℕ := 2

/-! ## Playback queue

The audio queue is a std::queue of byte vectors; we model it as a list of
chunks, front at the head, where a chunk is its list of bytes. -/

/-- A queued chunk: its bytes. -/
abbrev Chunk := List ℕ

/-- The std::queue of pending chunks, front of the queue at the head. -/
abbrev AudioQueue := List Chunk

/-- The queued-audio block of VoiceAssistantWebSocket::loop (lines 57-76):
the speaker accepts w bytes of the front chunk.  Full acceptance pops the
chunk; a nonzero partial acceptance pops the front and pushes the remainder
at the BACK of the std::queue; zero acceptance leaves the queue untouched.
Returns the new queue and the bytes delivered to the speaker this tick. -/
def wsLoopDrainStep (q : AudioQueue) (w : ℕ) : AudioQueue × List ℕ :=
  match q with
  | [] => ([], [])
  | front :: rest =>
    if w = front.length then (rest, front)
    else if 0 < w then
      if w < front.length then (rest ++ [front.drop w], front.take w)
      else (rest, front)
    else (front :: rest, [])

/-- The queued-audio block of VoiceAssistantWebRTC::loop (lines 108-120);
identical to the websocket variant except that the partial branch has no
inner length check. -/
def rtcLoopDrainStep (q : AudioQueue) (w : ℕ) : AudioQueue × List ℕ :=
  match q with
  | [] => ([], [])
  | front :: rest =>
    if w = front.length then (rest, front)
    else if 0 < w then (rest ++ [front.drop w], front.take w)
    else (front :: rest, [])

/-- The enqueue logic at the end of VoiceAssistantWebSocket::process_received_audio_
(lines 384-408): the speaker accepted w bytes of the freshly converted chunk.
If it accepted zero bytes of a nonempty chunk, the whole chunk is queued; if it
accepted a partial amount, the remainder is queued.  The MAX_QUEUE_SIZE check
only logs a warning; the chunk is pushed regardless of the queue size. -/
def wsEnqueueAfterPlay (q : AudioQueue) (chunk : Chunk) (w : ℕ) : AudioQueue :=
  if w = 0 ∧ 0 < chunk.length then q ++ [chunk]
  else if w < chunk.length then q ++ [chunk.drop w]
  else q

/-- The enqueue logic at the end of VoiceAssistantWebRTC::process_received_audio_
(lines 720-729): the remainder is queued only while the queue is below
MAX_QUEUE_SIZE; a push on a full queue is silently dropped. -/
def rtcEnqueueAfterPlay (q : AudioQueue) (chunk : Chunk) (w : ℕ) : AudioQueue :=
  if w < chunk.length then
    if q.length < RTC_MAX_QUEUE_SIZE then q ++ [chunk.drop w] else q
  else q

/-- An operation on the WebRTC playback queue: a new chunk arriving from the
peer of which the speaker accepts some bytes, or one drain pass of loop(). -/
inductive RtcQueueOp where
  | push (chunk : Chunk) (accepted : ℕ)
  | drain (accepted : ℕ)

/-- Effect of one operation on the WebRTC audio queue. -/
def rtcQueueStep (q : AudioQueue) : RtcQueueOp → AudioQueue
  | .push c w => rtcEnqueueAfterPlay q c w
  | .drain w => (rtcLoopDrainStep q w).1

/-- The WebRTC audio queue after a sequence of push/drain operations. -/
def rtcQueueRun (q : AudioQueue) (ops : List RtcQueueOp) : AudioQueue :=
  ops.foldl rtcQueueStep q

/-! ## Reconnect gate (WebSocket variant)

millis() returns a uint32 millisecond clock; subtraction wraps modulo 2^32. -/

/-- Wrapping uint32 difference now - last, as computed on uint32 millis values. -/
def elapsed32 (now last : ℕ) : ℕ :=
  (now % 2 ^ 32 + 2 ^ 32 - last % 2 ^ 32) % 2 ^ 32

/-- The fields of VoiceAssistantWebSocket that the reconnect branch of loop()
reads or writes. -/
structure WsReconnectState where
  reconnect_pending : Bool
  pending_disconnect : Bool
  websocket_client_live : Bool
  reconnect_attempts : ℕ
  last_reconnect_attempt : ℕ
  deriving DecidableEq

/-- The guard of the reconnection branch of VoiceAssistantWebSocket::loop
(lines 85-89): reconnect_pending_ && !pending_disconnect_ &&
websocket_client_ == nullptr && (millis() - last_reconnect_attempt_) >
RECONNECT_DELAY_MS && reconnect_attempts_ < MAX_RECONNECT_ATTEMPTS. -/
def wsReconnectGate (s : WsReconnectState) (now : ℕ) : Bool :=
  s.reconnect_pending && !s.pending_disconnect && !s.websocket_client_live &&
    decide (RECONNECT_DELAY_MS < elapsed32 now s.last_reconnect_attempt) &&
    decide (s.reconnect_attempts < MAX_RECONNECT_ATTEMPTS)

/-- The mutations performed when the reconnection branch fires (lines 90-92):
clear the pending flag, record the attempt time, increment the counter. -/
def wsRecordAttempt (s : WsReconnectState) (now : ℕ) : WsReconnectState :=
  { s with reconnect_pending := false, last_reconnect_attempt := now,
           reconnect_attempts := s.reconnect_attempts + 1 }

/-- Consecutive recorded reconnect attempts at the given times. -/
def wsRecordMany (s : WsReconnectState) (times : List ℕ) : WsReconnectState :=
  times.foldl wsRecordAttempt s

/-- Modelled from the spec: the should_retry predicate of §4.4 — true exactly
when attempts < max_attempts and now - last_attempt_time >= delay. -/
def specShouldRetry (attempts last now : ℕ) : Prop :=
  attempts < MAX_RECONNECT_ATTEMPTS ∧ RECONNECT_DELAY_MS ≤ elapsed32 now last

instance (attempts last now : ℕ) : Decidable (specShouldRetry attempts last now) := by
  unfold specShouldRetry
  infer_instance

/-! ## Session state machines -/

/-- VoiceAssistantWebSocketState (voice_assistant_websocket.h). -/
inductive WsState where
  | idle | starting | running | stopping | error | disconnected
  deriving DecidableEq

/-- VoiceAssistantWebRTCState (voice_assistant_webrtc.h). -/
inductive RtcState where
  | idle | starting | signalling | running | stopping | error | disconnected
  deriving DecidableEq

/-- Externally observable effects: state_callback_ invocations and the four
automation triggers, in the WebSocket variant. -/
inductive WsEvent where
  | state_cb (s : WsState)
  | connected_trigger | disconnected_trigger | error_trigger | stopped_trigger
  deriving DecidableEq

/-- Externally observable effects in the WebRTC variant. -/
inductive RtcEvent where
  | state_cb (s : RtcState)
  | connected_trigger | disconnected_trigger | error_trigger | stopped_trigger
  deriving DecidableEq

/-- The fields of VoiceAssistantWebSocket that start() / connect_websocket_
read or write. -/
structure WsSession where
  state : WsState
  reconnect_attempts : ℕ
  explicit_disconnect : Bool
  last_speaker_audio_time : ℕ
  reconnect_pending : Bool
  pending_disconnect : Bool
  websocket_client_live : Bool
  last_reconnect_attempt : ℕ
  server_url_empty : Bool
  deriving DecidableEq

/-- Outcome of the external websocket client library calls inside
connect_websocket_: init may fail, client start may fail, or succeed. -/
inductive ConnectOutcome where
  | ok | initFail | startFail
  deriving DecidableEq

/-- VoiceAssistantWebSocket::connect_websocket_ (lines 221-282).  If a client
already exists it only arms pending_disconnect_/reconnect_pending_; an empty
URL or a failed init/start sets the Error state (with a state callback);
otherwise the client is created and live. -/
def wsConnectWebsocket (s : WsSession) (now : ℕ) (o : ConnectOutcome) :
    WsSession × List WsEvent :=
  if s.websocket_client_live then
    ({ s with pending_disconnect := true, reconnect_pending := true,
              last_reconnect_attempt := now }, [])
  else if s.server_url_empty then
    ({ s with state := .error }, [WsEvent.state_cb .error])
  else
    match o with
    | .initFail => ({ s with state := .error }, [WsEvent.state_cb .error])
    | .startFail => ({ s with state := .error, websocket_client_live := false },
                     [WsEvent.state_cb .error])
    | .ok => ({ s with websocket_client_live := true }, [])

/-- VoiceAssistantWebSocket::start (lines 137-182).  Only a RUNNING state is
rejected; otherwise the state becomes STARTING, the auto-stop clock and the
explicit-disconnect flag are cleared (the reconnect counter is NOT touched),
the state callback fires and connect_websocket_ runs.  Microphone and
speaker driver calls are external side effects outside this model. -/
def wsStart (s : WsSession) (now : ℕ) (o : ConnectOutcome) :
    WsSession × List WsEvent :=
  if s.state = .running then (s, [])
  else
    let s1 := { s with state := WsState.starting, last_speaker_audio_time := 0,
                       explicit_disconnect := false }
    let r := wsConnectWebsocket s1 now o
    (r.1, WsEvent.state_cb .starting :: r.2)

/-- The fields of VoiceAssistantWebRTC that start() / connect_peer_ read or
write. -/
structure RtcSession where
  state : RtcState
  reconnect_attempts : ℕ
  explicit_disconnect : Bool
  pending_disconnect : Bool
  pending_start : Bool
  reconnect_pending : Bool
  last_reconnect_attempt : ℕ
  deriving DecidableEq

/-- Outcome of the esp_peer / AFE initialization sequence inside
connect_peer_: any of its failure paths, or success. -/
inductive PeerConnectOutcome where
  | ok | fail
  deriving DecidableEq

/-- VoiceAssistantWebRTC::connect_peer_ (lines 430-608): the state becomes
SIGNALLING; every failure path sets ERROR and fires the error trigger (no
state callback on those paths); on success the SDP/ICE exchange proceeds
asynchronously.  reconnect_attempts_ and explicit_disconnect_ are not
touched. -/
def rtcConnectPeer (s : RtcSession) (o : PeerConnectOutcome) :
    RtcSession × List RtcEvent :=
  let s1 := { s with state := RtcState.signalling }
  match o with
  | .fail => ({ s1 with state := .error }, [RtcEvent.error_trigger])
  | .ok => (s1, [])

/-- VoiceAssistantWebRTC::start (lines 164-188): any state other than IDLE /
DISCONNECTED / ERROR is rejected with no effect; otherwise the state becomes
STARTING, the explicit-disconnect flag is cleared, the reconnect counter is
reset to zero, the state callback fires and connect_peer_ runs. -/
def rtcStart (s : RtcSession) (o : PeerConnectOutcome) :
    RtcSession × List RtcEvent :=
  if s.state ≠ .idle ∧ s.state ≠ .disconnected ∧ s.state ≠ .error then (s, [])
  else
    let s1 := { s with state := RtcState.starting, explicit_disconnect := false,
                       reconnect_attempts := 0 }
    let r := rtcConnectPeer s1 o
    (r.1, RtcEvent.state_cb .starting :: r.2)

/-- AUTO_STOP_INACTIVITY_MS in both headers (20 s). -/
def AUTO_STOP_INACTIVITY_MS : ℕ := 20000

/-- VoiceAssistantWebRTC::stop (lines 190-199): a no-op when Idle; otherwise
it flags the explicit disconnect, enters Stopping and defers the teardown to
loop() via pending_disconnect_.  No callback or trigger fires here. -/
def rtcStop (s : RtcSession) : RtcSession :=
  if s.state = .idle then s
  else { s with explicit_disconnect := true, state := .stopping,
                pending_disconnect := true }

/-- The VoiceAssistantWebRTC fields that loop() reads or writes beyond the
session flags: the auto-stop clock and the playback queue. -/
structure RtcComponent where
  session : RtcSession
  last_speaker_audio_time : ℕ
  audio_queue : AudioQueue
  deriving DecidableEq

/-- The queued-audio block of VoiceAssistantWebRTC::loop (lines 108-120),
guarded by the speaker being non-null and running. -/
def rtcLoopQueue (c : RtcComponent) (speakerRunning : Bool) (w : ℕ) : AudioQueue :=
  if speakerRunning then (rtcLoopDrainStep c.audio_queue w).1 else c.audio_queue

/-- The auto-stop check of VoiceAssistantWebRTC::loop (lines 123-128): while
Running with at least one chunk received, strictly more than
AUTO_STOP_INACTIVITY_MS after the last speaker audio, stop() is invoked. -/
def rtcLoopAutoStop (s : RtcSession) (lastAudio now : ℕ) : RtcSession :=
  if s.state = .running ∧ 0 < lastAudio ∧
      AUTO_STOP_INACTIVITY_MS < elapsed32 now lastAudio then
    rtcStop s
  else s

/-- VoiceAssistantWebRTC::loop (lines 82-156): pending-disconnect teardown
(early return, which clears the reconnect flag and counter), queued-audio
drain, auto-stop, esp_peer_main_loop (external, touches none of the modelled
fields), then pending start.  The third component reports whether a
connection attempt (connect_peer_) was initiated this tick: the ONLY path
that can initiate one is a pending explicit start that finds the session in
Idle / Disconnected / Error — no branch of loop() reads reconnect_pending_,
which is written (lines 96, 294) but never consumed anywhere in the
component. -/
def rtcLoop (c : RtcComponent) (now : ℕ) (speakerRunning : Bool) (w : ℕ)
    (o : PeerConnectOutcome) : RtcComponent × List RtcEvent × Bool :=
  if c.session.pending_disconnect then
    (⟨{ c.session with pending_disconnect := false, state := .idle,
                       reconnect_attempts := 0, reconnect_pending := false },
      c.last_speaker_audio_time, c.audio_queue⟩,
     [RtcEvent.state_cb .idle, RtcEvent.stopped_trigger], false)
  else if (rtcLoopAutoStop c.session c.last_speaker_audio_time now).pending_start then
    (⟨(rtcStart { (rtcLoopAutoStop c.session c.last_speaker_audio_time now) with
          pending_start := false } o).1,
      c.last_speaker_audio_time, rtcLoopQueue c speakerRunning w⟩,
     (rtcStart { (rtcLoopAutoStop c.session c.last_speaker_audio_time now) with
        pending_start := false } o).2,
     if (rtcLoopAutoStop c.session c.last_speaker_audio_time now).state = RtcState.idle ∨
        (rtcLoopAutoStop c.session c.last_speaker_audio_time now).state = RtcState.disconnected ∨
        (rtcLoopAutoStop c.session c.last_speaker_audio_time now).state = RtcState.error then
       true
     else false)
  else
    (⟨rtcLoopAutoStop c.session c.last_speaker_audio_time now,
      c.last_speaker_audio_time, rtcLoopQueue c speakerRunning w⟩, [], false)

/-- The ESP_PEER_STATE_DISCONNECTED handling of handle_peer_state_: during
Signalling the early special case (lines 258-263) returns with no state
change; from Running (lines 279-299) the session becomes Disconnected, the
callback and the disconnected trigger fire, and — unless explicitly
disconnected or the counter is exhausted — the attempt counter is
incremented and reconnect_pending_ is armed with the current time. -/
def rtcPeerDisconnected (s : RtcSession) (now : ℕ) : RtcSession × List RtcEvent :=
  if s.state = .signalling then (s, [])
  else if s.state = .running then
    (if ¬s.explicit_disconnect ∧ s.reconnect_attempts < MAX_RECONNECT_ATTEMPTS then
       { s with state := RtcState.disconnected,
                reconnect_attempts := s.reconnect_attempts + 1,
                reconnect_pending := true, last_reconnect_attempt := now }
     else { s with state := RtcState.disconnected },
     [RtcEvent.state_cb .disconnected, RtcEvent.disconnected_trigger])
  else (s, [])

/-- A concrete WebRTC session in the Running state with no attempts
recorded and no pending flags. -/
def rtcRun0 : RtcSession :=
  { state := .running, reconnect_attempts := 0, explicit_disconnect := false,
    pending_disconnect := false, pending_start := false,
    reconnect_pending := false, last_reconnect_attempt := 0 }

/-! ## Audio format conversion -/

/-- Truncation toward zero of a rational, as the C cast from a floating value
to an integer type. -/
def truncQ (q : ℚ) : ℤ := if 0 ≤ q then ⌊q⌋ else ⌈q⌉

/-- Wrap an integer into the int16 range, as the C cast to int16_t. -/
def wrap16 (x : ℤ) : ℤ := (x + 2 ^ 15) % 2 ^ 16 - 2 ^ 15

/-- Wrap an integer into the int32 range, as C int32_t arithmetic. -/
def wrap32 (x : ℤ) : ℤ := (x + 2 ^ 31) % 2 ^ 32 - 2 ^ 31

/-- Ideal source position of the resampling loops: source_pos = i *
MICROPHONE_SAMPLE_RATE / INPUT_SAMPLE_RATE for rates A → B (the C code
computes this in float; we use the exact rational). -/
def srcPos (rateA rateB i : ℕ) : ℚ := (i * rateA : ℚ) / (rateB : ℚ)

/-- source_idx = (size_t) source_pos (truncation of a nonnegative value). -/
def srcIdx (rateA rateB i : ℕ) : ℕ := (⌊srcPos rateA rateB i⌋).toNat

/-- fraction = source_pos - source_idx. -/
def srcFrac (rateA rateB i : ℕ) : ℚ :=
  srcPos rateA rateB i - (srcIdx rateA rateB i : ℚ)

/-- Bit length helper: natBitsAux fuel n counts how often n can be halved
before reaching 0 or 1, i.e. the floor of log2 n for n >= 1 when the fuel
suffices. -/
def natBitsAux : ℕ → ℕ → ℕ
  | 0, _ => 0
  | fuel + 1, n => if n ≤ 1 then 0 else natBitsAux fuel (n / 2) + 1

/-- Floor of log2 n for n >= 1 (fuel n + 1 always suffices). -/
def natBits (n : ℕ) : ℕ := natBitsAux (n + 1) n

/-- A dyadic rational m * 2 ^ e.  Every finite IEEE-754 binary32 value is of
this form; representing floats this way keeps all float modelling in exact
integer arithmetic. -/
structure Dy where
  m : ℤ
  e : ℤ
  deriving DecidableEq

/-- The rational value of a dyadic (for stating value-level facts). -/
def Dy.toQ (x : Dy) : ℚ :=
  if 0 ≤ x.e then (x.m : ℚ) * (2 ^ x.e.toNat : ℕ) else (x.m : ℚ) / (2 ^ (-x.e).toNat : ℕ)

/-- Exact negation of a dyadic. -/
def dyNeg (x : Dy) : Dy := ⟨-x.m, x.e⟩

/-- Exact product of two dyadics. -/
def dyMul (x y : Dy) : Dy := ⟨x.m * y.m, x.e + y.e⟩

/-- Exact sum of two dyadics (align to the smaller exponent). -/
def dyAdd (x y : Dy) : Dy :=
  if x.e ≤ y.e then ⟨x.m + y.m * 2 ^ (y.e - x.e).toNat, x.e⟩
  else ⟨x.m * 2 ^ (x.e - y.e).toNat + y.m, y.e⟩

/-- Floor of a dyadic as an integer. -/
def dyFloor (x : Dy) : ℤ :=
  if 0 ≤ x.e then x.m * 2 ^ x.e.toNat else Int.fdiv x.m (2 ^ (-x.e).toNat)

/-- Truncation of a dyadic toward zero, as the C cast from float to an
integer type (Int.tdiv rounds toward zero). -/
def dyTrunc (x : Dy) : ℤ :=
  if 0 ≤ x.e then x.m * 2 ^ x.e.toNat else Int.tdiv x.m (2 ^ (-x.e).toNat)

/-- Round-to-nearest integer division p / q for naturals, ties to even (the
IEEE-754 default rounding). -/
def rneDivNat (p q : ℕ) : ℕ :=
  if 2 * (p % q) < q then p / q
  else if q < 2 * (p % q) then p / q + 1
  else if (p / q) % 2 = 0 then p / q else p / q + 1

/-- Round a dyadic to the nearest IEEE-754 binary32 value: a mantissa of at
most 24 bits is already exact, a wider one is shifted down with round to
nearest, ties to even.  Subnormals and overflow are not modelled: every
value the resampling loop computes from 16-bit samples and frame indices
lies well inside the binary32 normal range. -/
def fl32D (x : Dy) : Dy :=
  if x.m = 0 then ⟨0, 0⟩
  else if natBits x.m.natAbs ≤ 23 then x
  else
    ⟨(if x.m < 0 then -1 else 1) *
       (rneDivNat x.m.natAbs (2 ^ (natBits x.m.natAbs - 23)) : ℤ),
     x.e + (natBits x.m.natAbs - 23)⟩

/-- Binary32 multiplication: round the exact product. -/
def fMul (x y : Dy) : Dy := fl32D (dyMul x y)

/-- Binary32 addition: round the exact sum. -/
def fAdd (x y : Dy) : Dy := fl32D (dyAdd x y)

/-- Binary32 subtraction: round the exact difference. -/
def fSub (x y : Dy) : Dy := fl32D (dyAdd x (dyNeg y))

/-- Binary32 conversion of an integer. -/
def intToF (z : ℤ) : Dy := fl32D ⟨z, 0⟩

/-- Binary32 division: the exact quotient of two nonzero dyadics rounded to
24 significant bits with round to nearest, ties to even.  The bit-length
estimate of the quotient exponent is off by at most one and a single integer
comparison settles it, so exactly one rounding is performed. -/
def fDiv (x y : Dy) : Dy :=
  if x.m = 0 ∨ y.m = 0 then ⟨0, 0⟩
  else
    let a := x.m.natAbs
    let b := y.m.natAbs
    let e0 : ℤ := (natBits a : ℤ) - (natBits b : ℤ)
    let eq : ℤ :=
      if (if 0 ≤ e0 then b * 2 ^ e0.toNat ≤ a else b ≤ a * 2 ^ (-e0).toNat)
      then e0 else e0 - 1
    let mant : ℕ :=
      if 0 ≤ 23 - eq then rneDivNat (a * 2 ^ (23 - eq).toNat) b
      else rneDivNat a (b * 2 ^ (eq - 23).toNat)
    ⟨(if (x.m < 0 ∧ 0 < y.m) ∨ (0 < x.m ∧ y.m < 0) then -1 else 1) * (mant : ℤ),
     eq - 23 + x.e - y.e⟩

/-- source_pos as the C loop computes it in float (line 456):
(float)i * (float)MICROPHONE_SAMPLE_RATE / (float)INPUT_SAMPLE_RATE, each
conversion and operation rounded to binary32. -/
def srcPosF (i : ℕ) : Dy :=
  fDiv (fMul (intToF (i : ℤ)) (intToF (MICROPHONE_SAMPLE_RATE : ℤ)))
    (intToF (INPUT_SAMPLE_RATE : ℤ))

/-- source_idx = (size_t) source_pos (line 457): truncation of the
nonnegative float position. -/
def srcIdxF (i : ℕ) : ℕ := (dyFloor (srcPosF i)).toNat

/-- fraction = source_pos - source_idx (line 458): the index converted back
to float, the subtraction performed in float. -/
def srcFracF (i : ℕ) : Dy := fSub (srcPosF i) (intToF (srcIdxF i : ℤ))

/-- sample0 + (sample1 - sample0) * fraction (line 464) with C typing: the
int16 difference is computed exactly in int, then converted to float; the
multiplication and the addition each round to binary32. -/
def interpF (s0 s1 : ℤ) (frac : Dy) : Dy :=
  fAdd (intToF s0) (fMul (intToF (s1 - s0)) frac)

/-- One output sample of the linear-interpolation loop in
VoiceAssistantWebSocket::on_microphone_data_ (lines 454-472): interpolate
when source_idx + 1 is in range, use the sample itself when source_idx is in
range, clamp to the last sample beyond the input.  All float steps are
modelled by exact binary32 rounding (fl32); the final int16_t cast truncates
toward zero (the interpolated value of int16 samples stays in int16 range,
so the cast never wraps). -/
def codeSampleF (src : List ℤ) (i : ℕ) : ℤ :=
  if srcIdxF i + 1 < src.length then
    dyTrunc (interpF (src.getD (srcIdxF i) 0) (src.getD (srcIdxF i + 1) 0)
      (srcFracF i))
  else if srcIdxF i < src.length then
    src.getD (srcIdxF i) 0
  else
    src.getD (src.length - 1) 0

/-- The 16 kHz → 24 kHz resampling of on_microphone_data_ (lines 446-472):
output length is (input_length * INPUT_SAMPLE_RATE) / MICROPHONE_SAMPLE_RATE,
exactly the count used to size resampled_buffer_. -/
def resampleCodeF (src : List ℤ) : List ℤ :=
  (List.range (src.length * INPUT_SAMPLE_RATE / MICROPHONE_SAMPLE_RATE)).map
    (codeSampleF src)

/-- The spec's case analysis (interpolate when idx + 1 in range, the sample
itself when idx is the last valid index, clamp beyond) with each arithmetic
step evaluated in binary32, as the amended claim states. -/
def specSampleF (src : List ℤ) (i : ℕ) : ℤ :=
  if srcIdxF i + 1 < src.length then
    dyTrunc (interpF (src.getD (srcIdxF i) 0) (src.getD (srcIdxF i + 1) 0)
      (srcFracF i))
  else if srcIdxF i + 1 = src.length then
    src.getD (srcIdxF i) 0
  else
    src.getD (src.length - 1) 0

/-- Modelled from the spec (§4.2 Resample): for output index i with p = i *
rateA / rateB, idx = floor p and frac = p - idx, interpolate when idx + 1 is
in range, use src idx when idx is the last valid index, clamp to the last
sample when idx exceeds the range. -/
def specSample (rateA rateB : ℕ) (src : List ℤ) (i : ℕ) : ℤ :=
  if srcIdx rateA rateB i + 1 < src.length then
    truncQ ((src.getD (srcIdx rateA rateB i) 0 : ℚ) +
      ((src.getD (srcIdx rateA rateB i + 1) 0 : ℚ) -
        (src.getD (srcIdx rateA rateB i) 0 : ℚ)) * srcFrac rateA rateB i)
  else if srcIdx rateA rateB i + 1 = src.length then
    src.getD (srcIdx rateA rateB i) 0
  else
    src.getD (src.length - 1) 0

/-- Modelled from the spec (§4.2): resampling rate A → rate B with the single
authoritative output length formula input_length * rateB / rateA. -/
def resampleSpec (rateA rateB : ℕ) (src : List ℤ) : List ℤ :=
  (List.range (src.length * rateB / rateA)).map (specSample rateA rateB src)

/-- Channel-0 downmix of on_microphone_data_ (lines 423-441): the input is
interleaved 32-bit stereo; each mono sample is the left channel shifted
arithmetically right by 16 bits and cast to int16_t.  Arithmetic right shift
on ℤ is floor division by 2^16. -/
def downmixLeft16 (stereo : List ℤ) : List ℤ :=
  (List.range (stereo.length / 2)).map fun i =>
    wrap16 ((stereo.getD (2 * i) 0).fdiv (2 ^ 16))

/-- Audio content of one microphone callback in the WebSocket variant
(on_microphone_data_, lines 411-482): 32-bit interleaved stereo samples in,
the list of 24 kHz 16-bit mono samples sent to the websocket out.  The
is_connected/RUNNING guard and the byte-level send are outside this model. -/
def on_microphone_data (data : List ℤ) : List ℤ :=
  resampleCodeF (downmixLeft16 data)

/-! ## WebRTC speaker-side conversion (process_received_audio_, lines 688-730) -/

/-- mono_samples = len / BYTES_PER_SAMPLE for an incoming chunk of len bytes. -/
def rtcMonoSamples (len : ℕ) : ℕ := len / BYTES_PER_SAMPLE

/-- stereo_samples = mono_samples * 2 (the comment says 48kHz = 2x 24kHz). -/
def rtcStereoSamples (len : ℕ) : ℕ := rtcMonoSamples len * 2

/-- The size in bytes the code resizes output_stereo_buffer_ to:
stereo_samples * BYTES_PER_SAMPLE (line 702). -/
def rtcResizeTarget (len : ℕ) : ℕ := rtcStereoSamples len * BYTES_PER_SAMPLE

/-- output_stereo_buffer_.size() after the conditional resize (lines 702-704):
the buffer is only grown, never shrunk. -/
def rtcBufferAfterResize (old len : ℕ) : ℕ :=
  if old < rtcResizeTarget len then rtcResizeTarget len else old

/-- One past the last byte offset written by the conversion loop (lines
710-715): the loop stores int32 values (4 bytes each) at int32 indices
i * 2 and i * 2 + 1 for every i < mono_samples, touching bytes
[0, stereo_samples * 4). -/
def rtcStoreByteEnd (len : ℕ) : ℕ := rtcStereoSamples len * 4

/-- The byte count handed to speaker_->play (line 718):
stereo_samples * BYTES_PER_SAMPLE * 2. -/
def rtcPlayBytes (len : ℕ) : ℕ := rtcStereoSamples len * BYTES_PER_SAMPLE * 2

/-- The sample values produced by the conversion loop (lines 710-715): each
16-bit mono sample is widened by (int32_t)sample << 16 and written to both
the left and the right channel slot. -/
def rtcMonoToStereo (mono : List ℤ) : List ℤ :=
  (mono.map fun s => [wrap32 (s * 2 ^ 16), wrap32 (s * 2 ^ 16)]).flatten

/-! ## Pipecat signaling (pipecat_signaling.cpp) -/

/-- A cJSON field value, as far as handle_sdp_message inspects it: a JSON
string, or any other JSON value (cJSON_IsString fails). -/
inductive JVal where
  | jstr (s : String)
  | jother
  deriving DecidableEq

/-- The fields of the /webrtc/offer response body that handle_sdp_message
reads (cJSON_GetObjectItem on sdp and pc_id); a missing field is none. -/
structure SdpBody where
  sdp : Option JVal
  pc_id : Option JVal
  deriving DecidableEq

/-- An HTTP response to the SDP offer POST: the status code returned by
send_http_post_ (0 on transport failure) and the parsed body, none when
cJSON_Parse fails. -/
structure SdpHttpResponse where
  status : ℕ
  body : Option SdpBody
  deriving DecidableEq

/-- esp_peer error codes used by the signaling handlers. -/
inductive PeerErr where
  | errNone | errFail | errInvalidArg | errNotSupport
  deriving DecidableEq

/-- Observable outcome of handle_sdp_message: its return code, the SDP answer
forwarded to esp_peer_send_msg (none when nothing is forwarded), and the
pc_id captured for later ICE submissions. -/
structure SdpOutcome where
  result : PeerErr
  forwarded : Option String
  pc_id_set : Option String
  deriving DecidableEq

/-- PipecatSignaling::handle_sdp_message (lines 46-135).  Null data / empty
data / null peer argument is INVALID_ARG.  A non-200 status is a failure
with nothing forwarded; so are an unparseable body and a missing or
non-string sdp field.  Otherwise the answer is forwarded to the stored peer
handle (when non-null) and a string pc_id field is captured; the return is
ERR_NONE. -/
def handle_sdp_message (peerArg : Bool) (dataSize : ℕ) (peerHandle : Bool)
    (resp : SdpHttpResponse) : SdpOutcome :=
  if dataSize = 0 ∨ peerArg = false then ⟨.errInvalidArg, none, none⟩
  else if resp.status ≠ 200 then ⟨.errFail, none, none⟩
  else
    match resp.body with
    | none => ⟨.errFail, none, none⟩
    | some body =>
      match body.sdp with
      | some (JVal.jstr answer) =>
        ⟨.errNone,
          if peerHandle then some answer else none,
          match body.pc_id with
          | some (JVal.jstr p) => some p
          | _ => none⟩
      | _ => ⟨.errFail, none, none⟩

/-- A 200 response whose parsed body has no string sdp field, or whose body
did not parse at all. -/
def sdpMissing (r : SdpHttpResponse) : Prop :=
  r.body = none ∨ ∃ b, r.body = some b ∧ ∀ str, b.sdp ≠ some (JVal.jstr str)

/-- Outcome of the HTTP PATCH performed by send_http_patch_ (lines 202-232):
the transport failed, or the request completed with some status code.
send_http_patch_ returns void — the outcome is only logged. -/
inductive PatchOutcome where
  | transportErr
  | httpStatus (code : ℕ)
  deriving DecidableEq

/-- PipecatSignaling::handle_ice_candidate (lines 137-163): null or empty
candidate data or a null peer argument returns INVALID_ARG; otherwise the
candidate JSON (with the stored pc_id) is PATCHed to /webrtc/offer and the
function returns ERR_NONE regardless of how the PATCH went. -/
def handle_ice_candidate (peerArg : Bool) (dataSize : ℕ) (pcId : String)
    (o : PatchOutcome) : PeerErr :=
  if dataSize = 0 ∨ peerArg = false then .errInvalidArg
  else .errNone

/-- Message type of esp_peer_msg_t as dispatched by handle_peer_msg_. -/
inductive PeerMsgType where
  | sdp | candidate | unknown
  deriving DecidableEq

/-- VoiceAssistantWebRTC::handle_peer_msg_ (lines 207-234): a null message or
missing signaling object is INVALID_ARG; otherwise the message is delegated
to the signaling handlers.  The session state field is never written on
this path, so the session component of the result is the unchanged input. -/
def rtcHandlePeerMsg (s : RtcSession) (signalingPresent : Bool)
    (t : PeerMsgType) (peerArg : Bool) (dataSize : ℕ) (peerHandle : Bool)
    (resp : SdpHttpResponse) (pcId : String) (o : PatchOutcome) :
    RtcSession × PeerErr :=
  if signalingPresent = false then (s, .errInvalidArg)
  else
    match t with
    | .sdp => (s, (handle_sdp_message peerArg dataSize peerHandle resp).result)
    | .candidate => (s, handle_ice_candidate peerArg dataSize pcId o)
    | .unknown => (s, .errNotSupport)

/-- A concrete reconnect state: retry pending, nothing blocking, no attempts
recorded yet, last attempt at time 0. -/
def wsRS0 : WsReconnectState :=
  { reconnect_pending := true, pending_disconnect := false,
    websocket_client_live := false, reconnect_attempts := 0,
    last_reconnect_attempt := 0 }

/-- A concrete WebSocket session: Disconnected after the reconnect counter was
exhausted (5 recorded attempts), explicit stop flagged. -/
def wsDisc5 : WsSession :=
  { state := .disconnected, reconnect_attempts := 5, explicit_disconnect := true,
    last_speaker_audio_time := 0, reconnect_pending := false,
    pending_disconnect := false, websocket_client_live := false,
    last_reconnect_attempt := 0, server_url_empty := false }

/-- A concrete WebSocket session in the Stopping state (stop() was called and
its deferred disconnect has not yet run in loop()). -/
def wsStopS : WsSession :=
  { state := .stopping, reconnect_attempts := 0, explicit_disconnect := true,
    last_speaker_audio_time := 7, reconnect_pending := false,
    pending_disconnect := true, websocket_client_live := false,
    last_reconnect_attempt := 0, server_url_empty := false }

theorem rtcQueueStep_length_le {q : AudioQueue} (op : RtcQueueOp)
    (h : q.length ≤ RTC_MAX_QUEUE_SIZE) :
    (rtcQueueStep q op).length ≤ RTC_MAX_QUEUE_SIZE := by
  cases op with
  | push c w =>
    simp only [rtcQueueStep, rtcEnqueueAfterPlay]
    split_ifs with h1 h2
    · simp only [List.length_append, List.length_cons, List.length_nil]
      omega
    · exact h
    · exact h
  | drain w =>
    match q with
    | [] => simp [rtcQueueStep, rtcLoopDrainStep]
    | front :: rest =>
      have hlen : rest.length + 1 ≤ RTC_MAX_QUEUE_SIZE := by simpa using h
      simp only [rtcQueueStep, rtcLoopDrainStep]
      split_ifs with h1 h2
      · simpa using Nat.le_of_succ_le hlen
      · simpa using hlen
      · simpa using hlen

/-- C3, part provable on the code (WebRTC variant): the queue length never
exceeds MAX_QUEUE_SIZE across any operation sequence, and a push attempted
on a full queue leaves the queue unchanged (the chunk is rejected). -/
theorem rtc_queue_bounded (q : AudioQueue) (ops : List RtcQueueOp)
    (h : q.length ≤ RTC_MAX_QUEUE_SIZE) :
    (rtcQueueRun q ops).length ≤ RTC_MAX_QUEUE_SIZE ∧
    (∀ c w, RTC_MAX_QUEUE_SIZE ≤ q.length → rtcEnqueueAfterPlay q c w = q) := by
  constructor
  · induction ops generalizing q with
    | nil => exact h
    | cons op ops ih =>
      simp only [rtcQueueRun, List.foldl_cons] at *
      exact ih _ (rtcQueueStep_length_le op h)
  · intro c w hfull
    simp only [rtcEnqueueAfterPlay]
    split_ifs with h1 h2
    · omega
    · rfl
    · rfl

/-- Claim C1: the spec states that a nonzero-but-partial speaker write leaves
the unaccepted remainder as the new FRONT chunk, so delivered byte order
always equals enqueue order.  The code instead pushes the remainder at the
back of the std::queue: starting from the queue [[1,2,3,4],[5,6]] and a
speaker that accepts 2 bytes per tick, the bytes reach the speaker in the
order 1,2,5,6,3,4 — not the enqueue order 1,2,3,4,5,6.  The same happens in
the WebRTC drain. -/
theorem ws_partial_drain_reorders_bytes :
    wsLoopDrainStep [[1, 2, 3, 4], [5, 6]] 2 = ([[5, 6], [3, 4]], [1, 2]) ∧
    wsLoopDrainStep [[5, 6], [3, 4]] 2 = ([[3, 4]], [5, 6]) ∧
    wsLoopDrainStep [[3, 4]] 2 = ([], [3, 4]) ∧
    rtcLoopDrainStep [[1, 2, 3, 4], [5, 6]] 2 = ([[5, 6], [3, 4]], [1, 2]) ∧
    ([1, 2] ++ [5, 6] ++ [3, 4] : List ℕ) ≠ [1, 2, 3, 4] ++ [5, 6] := by
  decide

/-- Claim C3, counterexample: in the WebSocket variant a push on a queue that
already holds MAX_QUEUE_SIZE = 10 chunks is NOT rejected — the chunk is
enqueued anyway and the length exceeds the configured maximum. -/
theorem ws_push_on_full_queue_not_rejected :
    (wsEnqueueAfterPlay (List.replicate 10 [0]) [1, 2] 0).length = 11 ∧
    WS_MAX_QUEUE_SIZE < 11 := by
  decide

/-- Witness for rtc_queue_bounded at a concrete full queue of 68 chunks. -/
theorem rtc_queue_bounded_witness :
    (List.replicate 68 ([0] : Chunk)).length ≤ RTC_MAX_QUEUE_SIZE ∧
    ((rtcQueueRun (List.replicate 68 [0])
        [RtcQueueOp.push [1, 2] 0, RtcQueueOp.drain 1]).length ≤ RTC_MAX_QUEUE_SIZE ∧
      (∀ c w, RTC_MAX_QUEUE_SIZE ≤ (List.replicate 68 ([0] : Chunk)).length →
        rtcEnqueueAfterPlay (List.replicate 68 [0]) c w = List.replicate 68 [0])) :=
  ⟨by decide, rtc_queue_bounded (List.replicate 68 [0])
    [RtcQueueOp.push [1, 2] 0, RtcQueueOp.drain 1] (by decide)⟩

theorem wsRecordMany_attempts (s : WsReconnectState) (times : List ℕ) :
    (wsRecordMany s times).reconnect_attempts =
      s.reconnect_attempts + times.length := by
  induction times generalizing s with
  | nil => rfl
  | cons t ts ih =>
    show (wsRecordMany (wsRecordAttempt s t) ts).reconnect_attempts = _
    rw [ih]
    simp only [wsRecordAttempt, List.length_cons]
    omega

theorem rtcLoopAutoStop_pending_start (s : RtcSession) (la now : ℕ) :
    (rtcLoopAutoStop s la now).pending_start = s.pending_start := by
  unfold rtcLoopAutoStop rtcStop
  split_ifs <;> rfl

/-- Claim C7, counterexample.  WebSocket: when exactly RECONNECT_DELAY_MS
(5000 ms) has elapsed since the last attempt, the spec predicate
(elapsed >= delay) says retry, but the loop guard uses a strict comparison
and does not fire.  WebRTC: after an unexplained peer disconnect from
Running, the code arms reconnect_pending_ with attempts = 1 < 5, yet loop()
has no branch that consumes the flag — at a later time that the spec
predicate deems eligible (elapsed 499000 ms >= 5000 ms) no connection
attempt is initiated and the session stays Disconnected. -/
theorem ws_reconnect_gate_boundary :
    (specShouldRetry 0 0 5000 ∧ wsReconnectGate wsRS0 5000 = false) ∧
    ((rtcPeerDisconnected rtcRun0 1000).1.reconnect_pending = true ∧
      (rtcPeerDisconnected rtcRun0 1000).1.reconnect_attempts = 1 ∧
      specShouldRetry 1 1000 500000 ∧
      (rtcLoop ⟨(rtcPeerDisconnected rtcRun0 1000).1, 0, []⟩ 500000 false 0
          .ok).2.2 = false ∧
      (rtcLoop ⟨(rtcPeerDisconnected rtcRun0 1000).1, 0, []⟩ 500000 false 0
          .ok).1.session.state = RtcState.disconnected) := by
  decide

/-- Claim C7, amended: in the WebSocket variant the reconnection branch fires
exactly when the reconnect flag is pending, no disconnect is pending, the
websocket client has been torn down, strictly more than RECONNECT_DELAY_MS
elapsed since the last attempt, and fewer than MAX_RECONNECT_ATTEMPTS are
recorded; after MAX_RECONNECT_ATTEMPTS consecutive recorded attempts without
a reset the branch never fires again, regardless of elapsed time.  In the
WebRTC variant reconnect_pending_ is armed but never consumed: whenever no
explicit start request is pending, loop() initiates no connection attempt,
whatever the reconnect flag, counter and elapsed time say. -/
theorem ws_reconnect_gate_exact (s : WsReconnectState) (now : ℕ) :
    (wsReconnectGate s now = true ↔
      s.reconnect_pending = true ∧ s.pending_disconnect = false ∧
      s.websocket_client_live = false ∧
      RECONNECT_DELAY_MS < elapsed32 now s.last_reconnect_attempt ∧
      s.reconnect_attempts < MAX_RECONNECT_ATTEMPTS) ∧
    (∀ times : List ℕ, MAX_RECONNECT_ATTEMPTS ≤ times.length →
      ∀ t, wsReconnectGate (wsRecordMany s times) t = false) ∧
    (∀ (c : RtcComponent) (now2 : ℕ) (sp : Bool) (w : ℕ)
        (o : PeerConnectOutcome), c.session.pending_start = false →
      (rtcLoop c now2 sp w o).2.2 = false) := by
  refine ⟨?_, ?_, ?_⟩
  · simp [wsReconnectGate, and_assoc]
  · intro times hlen t
    have ha : MAX_RECONNECT_ATTEMPTS ≤ (wsRecordMany s times).reconnect_attempts := by
      rw [wsRecordMany_attempts]
      omega
    unfold wsReconnectGate
    have hd : decide ((wsRecordMany s times).reconnect_attempts <
        MAX_RECONNECT_ATTEMPTS) = false := by
      simp
      omega
    rw [hd, Bool.and_false]
  · intro c now2 sp w o hps
    unfold rtcLoop
    split_ifs with h1 h2 h3 <;>
      first
      | rfl
      | (rw [rtcLoopAutoStop_pending_start, hps] at h2
         exact Bool.noConfusion h2)

/-- Witness for ws_reconnect_gate_exact at the concrete state wsRS0 and
now = 6000 ms. -/
theorem ws_reconnect_gate_exact_witness :
    (wsReconnectGate wsRS0 6000 = true ↔
      wsRS0.reconnect_pending = true ∧ wsRS0.pending_disconnect = false ∧
      wsRS0.websocket_client_live = false ∧
      RECONNECT_DELAY_MS < elapsed32 6000 wsRS0.last_reconnect_attempt ∧
      wsRS0.reconnect_attempts < MAX_RECONNECT_ATTEMPTS) ∧
    (∀ times : List ℕ, MAX_RECONNECT_ATTEMPTS ≤ times.length →
      ∀ t, wsReconnectGate (wsRecordMany wsRS0 times) t = false) ∧
    (∀ (c : RtcComponent) (now2 : ℕ) (sp : Bool) (w : ℕ)
        (o : PeerConnectOutcome), c.session.pending_start = false →
      (rtcLoop c now2 sp w o).2.2 = false) :=
  ws_reconnect_gate_exact wsRS0 6000

/-- Claim C6, counterexample: in the WebSocket variant, start() called while
Disconnected with an exhausted reconnect counter leaves the counter at 5 —
it is not reset to zero as part of the start() call. -/
theorem ws_start_does_not_reset_attempts :
    wsDisc5.state = WsState.disconnected ∧
    (wsStart wsDisc5 1000 .ok).1.reconnect_attempts = 5 ∧ (5 : ℕ) ≠ 0 := by
  decide

/-- Claim C6, amended: in the WebRTC variant, start() from Idle / Disconnected
/ Error resets the reconnect counter to zero and clears the explicit-stop
flag; in the WebSocket variant, start() clears the explicit-stop flag but
leaves the reconnect counter unchanged (it is reset only on a successful
connection event or when a stop completes in loop()). -/
theorem start_reset_behavior (s : RtcSession) (t : WsSession)
    (o : PeerConnectOutcome) (o2 : ConnectOutcome) (now : ℕ)
    (hs : s.state = .idle ∨ s.state = .disconnected ∨ s.state = .error)
    (ht : t.state ≠ .running) :
    (rtcStart s o).1.reconnect_attempts = 0 ∧
    (rtcStart s o).1.explicit_disconnect = false ∧
    (wsStart t now o2).1.explicit_disconnect = false ∧
    (wsStart t now o2).1.reconnect_attempts = t.reconnect_attempts := by
  have hcond : ¬(s.state ≠ RtcState.idle ∧ s.state ≠ RtcState.disconnected ∧
      s.state ≠ RtcState.error) := by
    rcases hs with h | h | h <;> simp [h]
  refine ⟨?_, ?_, ?_, ?_⟩ <;>
    cases o <;> cases o2 <;>
      simp [rtcStart, rtcConnectPeer, wsStart, wsConnectWebsocket, hcond, ht] <;>
      split_ifs <;> rfl

/-- Witness for start_reset_behavior: a WebRTC session in Error with 5
attempts and a WebSocket session in Disconnected with 5 attempts. -/
theorem start_reset_behavior_witness :
    ((RtcSession.mk .error 5 true false false false 0).state = .idle ∨
      (RtcSession.mk .error 5 true false false false 0).state = .disconnected ∨
      (RtcSession.mk .error 5 true false false false 0).state = .error) ∧
    wsDisc5.state ≠ .running ∧
    ((rtcStart (RtcSession.mk .error 5 true false false false 0) .ok).1.reconnect_attempts = 0 ∧
     (rtcStart (RtcSession.mk .error 5 true false false false 0) .ok).1.explicit_disconnect = false ∧
     (wsStart wsDisc5 1000 .ok).1.explicit_disconnect = false ∧
     (wsStart wsDisc5 1000 .ok).1.reconnect_attempts = wsDisc5.reconnect_attempts) :=
  ⟨by decide, by decide,
    start_reset_behavior (RtcSession.mk .error 5 true false false false 0) wsDisc5
      .ok .ok 1000 (by decide) (by decide)⟩

/-- Claim C8, counterexample: in the WebSocket variant, start() called while
Stopping is not a no-op — the state changes to Starting and the state
callback fires. -/
theorem ws_start_while_stopping_not_noop :
    wsStopS.state = WsState.stopping ∧
    (wsStart wsStopS 0 .ok).1.state = WsState.starting ∧
    (wsStart wsStopS 0 .ok).2 ≠ [] := by
  decide

/-- Claim C8, amended: in the WebRTC variant, start() in Starting, Signalling,
Running or Stopping is a no-op (state unchanged, no callback or trigger); in
the WebSocket variant only start() while Running is a no-op. -/
theorem start_noop_states (s : RtcSession) (t : WsSession)
    (o : PeerConnectOutcome) (o2 : ConnectOutcome) (now : ℕ)
    (hs : s.state = .starting ∨ s.state = .signalling ∨ s.state = .running ∨
      s.state = .stopping)
    (ht : t.state = .running) :
    rtcStart s o = (s, []) ∧ wsStart t now o2 = (t, []) := by
  constructor
  · have hc : s.state ≠ RtcState.idle ∧ s.state ≠ RtcState.disconnected ∧
        s.state ≠ RtcState.error := by
      rcases hs with h | h | h | h <;> simp [h]
    simp [rtcStart, hc]
  · simp [wsStart, ht]

/-- Witness for start_noop_states: a Running WebRTC session and a Running
WebSocket session. -/
theorem start_noop_states_witness :
    ((RtcSession.mk .running 2 false false false false 0).state = .starting ∨
      (RtcSession.mk .running 2 false false false false 0).state = .signalling ∨
      (RtcSession.mk .running 2 false false false false 0).state = .running ∨
      (RtcSession.mk .running 2 false false false false 0).state = .stopping) ∧
    (WsSession.mk .running 2 false 0 false false true 0 false).state = .running ∧
    (rtcStart (RtcSession.mk .running 2 false false false false 0) .ok =
        (RtcSession.mk .running 2 false false false false 0, []) ∧
      wsStart (WsSession.mk .running 2 false 0 false false true 0 false) 9 .ok =
        (WsSession.mk .running 2 false 0 false false true 0 false, [])) :=
  ⟨by decide, by decide,
    start_noop_states (RtcSession.mk .running 2 false false false false 0)
      (WsSession.mk .running 2 false 0 false false true 0 false) .ok .ok 9
      (by decide) (by decide)⟩

/-- Claim C2: FALSIFIED ON THE CODE.  For a 480-byte chunk (240 mono samples)
the resize establishes a buffer of stereo_samples * BYTES_PER_SAMPLE = 960
bytes, but the conversion loop stores 4-byte int32 samples through byte
offset 1919 and the play call reads 1920 bytes — both beyond the 960-byte
size the resize established. -/
theorem rtc_stereo_buffer_overflow :
    rtcBufferAfterResize 0 480 = 960 ∧
    rtcStoreByteEnd 480 = 1920 ∧
    rtcPlayBytes 480 = 1920 ∧
    rtcBufferAfterResize 0 480 < rtcStoreByteEnd 480 ∧
    rtcBufferAfterResize 0 480 < rtcPlayBytes 480 := by
  decide

set_option maxRecDepth 4000 in
/-- Claim C4: FALSIFIED ON THE CODE.  A 480-byte (240-sample) 24 kHz mono
chunk produces 480 int32 samples = 240 stereo sample-pairs = 1920 bytes for
the speaker, not the 480 pairs / 3840 bytes the spec expects: despite the
comment, the loop performs no 24 kHz → 48 kHz doubling.  What does hold is
the per-sample rule: each mono sample is duplicated into both channels after
a left shift by 16 with zero-filled low bits. -/
theorem rtc_speaker_chunk_is_1920_bytes :
    rtcPlayBytes 480 = 1920 ∧ (1920 : ℕ) ≠ 3840 ∧
    (rtcMonoToStereo (List.replicate 240 5)).length * 4 = 1920 ∧
    rtcMonoToStereo [5, -7] =
      [5 * 2 ^ 16, 5 * 2 ^ 16, -7 * 2 ^ 16, -7 * 2 ^ 16] ∧
    (5 * 2 ^ 16 : ℤ) % 2 ^ 16 = 0 := by
  decide

/-- Claim C5, counterexample: the program evaluates the interpolation in
single-precision float, which does not satisfy the spec's exact equation.
At src = [0, 0, 0, 0, 3], output index 5: the float source position rounds
to 13981013/4194304 (just below 10/3), so fraction = 1398101/4194304 < 1/3
and 3 * fraction = 4194303/4194304 truncates to 0 — while the exact rule
gives 0 + 3 * (1/3) = 1. -/
theorem float_interp_differs_from_exact_rule :
    codeSampleF [0, 0, 0, 0, 3] 5 = 0 ∧
    specSample MICROPHONE_SAMPLE_RATE INPUT_SAMPLE_RATE [0, 0, 0, 0, 3] 5 = 1 ∧
    (0 : ℤ) ≠ 1 := by
  refine ⟨by decide, ?_, by decide⟩
  have hpos : srcPos MICROPHONE_SAMPLE_RATE INPUT_SAMPLE_RATE 5 = 10 / 3 := by
    unfold srcPos MICROPHONE_SAMPLE_RATE INPUT_SAMPLE_RATE
    norm_num
  have hfloor : ⌊(10 / 3 : ℚ)⌋ = 3 := by
    rw [Int.floor_eq_iff]
    constructor <;> norm_num
  have hidx : srcIdx MICROPHONE_SAMPLE_RATE INPUT_SAMPLE_RATE 5 = 3 := by
    unfold srcIdx
    rw [hpos, hfloor]
    rfl
  have hfrac : srcFrac MICROPHONE_SAMPLE_RATE INPUT_SAMPLE_RATE 5 = 1 / 3 := by
    unfold srcFrac
    rw [hpos, hidx]
    norm_num
  unfold specSample
  rw [hidx, hfrac]
  norm_num [truncQ, List.getD_cons_succ, List.getD_cons_zero, Int.floor_one]

theorem codeSampleF_eq_specSampleF (src : List ℤ) (i : ℕ) :
    codeSampleF src i = specSampleF src i := by
  unfold codeSampleF specSampleF
  by_cases h1 : srcIdxF i + 1 < src.length
  · rw [if_pos h1, if_pos h1]
  · by_cases h2 : srcIdxF i < src.length
    · have h3 : srcIdxF i + 1 = src.length := by omega
      rw [if_neg h1, if_neg h1, if_pos h2, if_pos h3]
    · have h3 : ¬srcIdxF i + 1 = src.length := by omega
      rw [if_neg h1, if_neg h1, if_neg h2, if_neg h3]

/-- Claim C5, amended: each output sample of the resampling loop is the
binary32 evaluation of the spec's linear-interpolation rule — the same case
analysis (interpolate when idx + 1 is in range, the sample itself when idx
is the last valid index, clamp beyond), with idx taken from the float source
position and the result truncated toward zero — the output length is the
single formula input_length * 24000 / 16000, and a frame of 320 stereo
32-bit sample-pairs yields 480 mono 16-bit samples = 960 bytes for the
transport. -/
theorem resample_float_rule (src : List ℤ) (h : src ≠ []) :
    resampleCodeF src =
      (List.range (src.length * INPUT_SAMPLE_RATE / MICROPHONE_SAMPLE_RATE)).map
        (specSampleF src) ∧
    (resampleCodeF src).length =
      src.length * INPUT_SAMPLE_RATE / MICROPHONE_SAMPLE_RATE ∧
    ∀ data : List ℤ, data.length = 640 →
      (on_microphone_data data).length * BYTES_PER_SAMPLE = 960 := by
  refine ⟨?_, ?_, ?_⟩
  · unfold resampleCodeF
    congr 1
    funext i
    exact codeSampleF_eq_specSampleF src i
  · simp [resampleCodeF]
  · intro data hd
    have h1 : (downmixLeft16 data).length = 320 := by
      simp [downmixLeft16, hd]
    unfold on_microphone_data
    simp only [resampleCodeF, List.length_map, List.length_range, h1]
    rfl

/-- Witness for resample_float_rule at the concrete source [0, 100]. -/
theorem resample_float_rule_witness :
    ([0, 100] : List ℤ) ≠ [] ∧
    (resampleCodeF [0, 100] =
        (List.range (([0, 100] : List ℤ).length * INPUT_SAMPLE_RATE /
          MICROPHONE_SAMPLE_RATE)).map (specSampleF [0, 100]) ∧
      (resampleCodeF [0, 100]).length =
        ([0, 100] : List ℤ).length * INPUT_SAMPLE_RATE / MICROPHONE_SAMPLE_RATE ∧
      ∀ data : List ℤ, data.length = 640 →
        (on_microphone_data data).length * BYTES_PER_SAMPLE = 960) :=
  ⟨by decide, resample_float_rule [0, 100] (by decide)⟩

/-- Claim C9: a 200 response with a missing (or non-string) sdp field, or an
unparseable body, yields exactly the same outcome as a non-200 response —
signaling failure with nothing forwarded — and an answer is forwarded only
when the status is 200 and the body holds a string sdp field. -/
theorem sdp_missing_equals_non200 (peerHandle : Bool) (n : ℕ)
    (respBad r200 : SdpHttpResponse) (hn : 0 < n)
    (hbad : respBad.status ≠ 200) (h200 : r200.status = 200)
    (hm : sdpMissing r200) :
    handle_sdp_message true n peerHandle respBad = ⟨.errFail, none, none⟩ ∧
    handle_sdp_message true n peerHandle r200 = ⟨.errFail, none, none⟩ ∧
    ∀ (r : SdpHttpResponse) (a : String),
      (handle_sdp_message true n peerHandle r).forwarded = some a →
      r.status = 200 ∧ ∃ b, r.body = some b ∧ b.sdp = some (JVal.jstr a) := by
  have hn0 : ¬n = 0 := by omega
  refine ⟨?_, ?_, ?_⟩
  · simp [handle_sdp_message, hn0, hbad]
  · rcases hm with hnone | ⟨b, hb, hs⟩
    · simp [handle_sdp_message, hn0, h200, hnone]
    · rcases hsdp : b.sdp with _ | v
      · simp [handle_sdp_message, hn0, h200, hb, hsdp]
      · cases v with
        | jstr str => exact absurd hsdp (hs str)
        | jother => simp [handle_sdp_message, hn0, h200, hb, hsdp]
  · intro r a hfwd
    by_cases hr : r.status = 200
    · rcases hb : r.body with _ | b
      · simp [handle_sdp_message, hn0, hr, hb] at hfwd
      · rcases hsdp : b.sdp with _ | v
        · simp [handle_sdp_message, hn0, hr, hb, hsdp] at hfwd
        · cases v with
          | jstr str =>
            refine ⟨hr, b, rfl, ?_⟩
            rw [hsdp]
            cases peerHandle with
            | false => simp [handle_sdp_message, hn0, hr, hb, hsdp] at hfwd
            | true =>
              simp [handle_sdp_message, hn0, hr, hb, hsdp] at hfwd
              rw [hfwd]
          | jother => simp [handle_sdp_message, hn0, hr, hb, hsdp] at hfwd
    · simp [handle_sdp_message, hn0, hr] at hfwd

/-- Witness for sdp_missing_equals_non200: a 500 response and a 200 response
whose body parsed but has no sdp field. -/
theorem sdp_missing_equals_non200_witness :
    (0 < 10) ∧
    ((⟨500, none⟩ : SdpHttpResponse).status ≠ 200) ∧
    ((⟨200, some ⟨none, none⟩⟩ : SdpHttpResponse).status = 200) ∧
    sdpMissing ⟨200, some ⟨none, none⟩⟩ ∧
    (handle_sdp_message true 10 true ⟨500, none⟩ = ⟨.errFail, none, none⟩ ∧
      handle_sdp_message true 10 true ⟨200, some ⟨none, none⟩⟩ =
        ⟨.errFail, none, none⟩ ∧
      ∀ (r : SdpHttpResponse) (a : String),
        (handle_sdp_message true 10 true r).forwarded = some a →
        r.status = 200 ∧ ∃ b, r.body = some b ∧ b.sdp = some (JVal.jstr a)) :=
  ⟨by decide, by decide, rfl,
    Or.inr ⟨⟨none, none⟩, rfl, fun str => by simp⟩,
    sdp_missing_equals_non200 true 10 ⟨500, none⟩ ⟨200, some ⟨none, none⟩⟩
      (by decide) (by decide) rfl
      (Or.inr ⟨⟨none, none⟩, rfl, fun str => by simp⟩)⟩

/-- Claim C10: an ICE-candidate submission with nonempty data returns
ERR_NONE to the peer layer no matter how the HTTP PATCH went (transport
error or any status code), and the dispatch path through handle_peer_msg_
leaves the session state untouched — a candidate failure never reaches the
Error state. -/
theorem ice_failure_swallowed (n : ℕ) (pcId : String) (o o2 : PatchOutcome)
    (s : RtcSession) (hn : 0 < n) :
    handle_ice_candidate true n pcId o = PeerErr.errNone ∧
    handle_ice_candidate true n pcId o = handle_ice_candidate true n pcId o2 ∧
    (rtcHandlePeerMsg s true .candidate true n true ⟨200, none⟩ pcId o).1 = s := by
  have hn0 : ¬n = 0 := by omega
  refine ⟨?_, ?_, ?_⟩ <;>
    simp [handle_ice_candidate, rtcHandlePeerMsg, hn0]

/-- Witness for ice_failure_swallowed: a 3-byte candidate whose PATCH hit a
transport error, compared against a completed PATCH with status 500. -/
theorem ice_failure_swallowed_witness :
    (0 < 3) ∧
    (handle_ice_candidate true 3 "pc1" .transportErr = PeerErr.errNone ∧
      handle_ice_candidate true 3 "pc1" .transportErr =
        handle_ice_candidate true 3 "pc1" (.httpStatus 500) ∧
      (rtcHandlePeerMsg (RtcSession.mk .running 0 false false false false 0) true
          .candidate true 3 true ⟨200, none⟩ "pc1" .transportErr).1 =
        RtcSession.mk .running 0 false false false false 0) :=
  ⟨by decide,
    ice_failure_swallowed 3 "pc1" .transportErr (.httpStatus 500)
      (RtcSession.mk .running 0 false false false false 0) (by decide)⟩

end VoiceAssist
